import Mathlib

/-
  Verification of the state-machine core of the bevy-state-v3 repository.

  The repository holds two revisions of the same library:
  - the older crate (src/bevy_state), whose record type is embedded here
    as StateDataOld, and
  - the newer crate (src/bevy_state_v3), embedded as StateData.

  Rust machine integers that appear (the u32 scheduling orders) cannot
  overflow without aborting compilation (const evaluation of
  ORDER = HIGHEST_ORDER + 1 panics on overflow rather than wrapping),
  so they are modelled as Nat.
-/

namespace BevyState

/- ### v3 record (src/bevy_state_v3/src/components.rs, struct StateData) -/

/-- Record for one state value, v3 revision.  Field for field the
struct StateData of bevy_state_v3/src/components.rs:
is_reentrant, previous (last different value, optional), current,
update (pending update payload), is_updated. -/
structure StateData (σ υ : Type) where
  is_reentrant : Bool
  previous : Option σ
  current : σ
  update : υ
  is_updated : Bool
deriving DecidableEq

/-- v3 StateData::inner_update (components.rs lines 79-86): if the next
value equals current, only raise is_reentrant; otherwise clear
is_reentrant and shift current into previous.  Note that the v3 source
does not touch is_updated here. -/
def StateData.inner_update [DecidableEq σ] (r : StateData σ υ) (next : σ) :
    StateData σ υ :=
  if next = r.current then
    { r with is_reentrant := true }
  else
    { r with is_reentrant := false, previous := some r.current, current := next }

/-- v3 StateData::new (components.rs lines 89-97).  The S::Update::default()
value is passed in as updDflt. -/
def StateData.new (initial : σ) (updDflt : υ) : StateData σ υ :=
  { current := initial
    previous := none
    is_reentrant := false
    update := updDflt
    is_updated := false }

/-- v3 StateData::reentrant_previous (components.rs lines 112-118). -/
def StateData.reentrant_previous (r : StateData σ υ) : Option σ :=
  if r.is_reentrant then some r.current else r.previous

/- ### old record (src/bevy_state/src/data.rs, struct StateData) -/

/-- Record for one state value, old revision.  previous is non-optional
and the pending payload field is named waker. -/
structure StateDataOld (σ υ : Type) where
  is_reentrant : Bool
  previous : σ
  current : σ
  waker : υ
  is_updated : Bool
deriving DecidableEq

/-- Old StateData::update (data.rs lines 48-56): same value shift as the
v3 inner_update, but afterwards it always sets is_updated := true. -/
def StateDataOld.update [DecidableEq σ] (r : StateDataOld σ υ) (next : σ) :
    StateDataOld σ υ :=
  let r1 :=
    if next = r.current then
      { r with is_reentrant := true }
    else
      { r with is_reentrant := false, previous := r.current, current := next }
  { r1 with is_updated := true }

/-- Old StateData::new (data.rs lines 67-75): previous starts equal to
current, is_reentrant starts true, and is_updated is the negation of the
suppress_initial_update argument. -/
def StateDataOld.new (initial : σ) (updDflt : υ) (suppress_initial_update : Bool) :
    StateDataOld σ υ :=
  { current := initial
    previous := initial
    is_updated := !suppress_initial_update
    is_reentrant := true
    waker := updDflt }

/- ### the StateUpdate trait (both revisions) -/

/-- The StateUpdate capability interface: should_update gates the update
pass, post_update (named reset in the old revision) clears the payload
after an update ran. -/
structure StateUpdateOps (υ : Type) where
  should_update : υ → Bool
  post_update : υ → υ

/-- The impl of StateUpdate for Option of S: should_update is is_some,
post_update is take (leaving none behind). -/
def optionStateUpdateOps (σ : Type) : StateUpdateOps (Option σ) :=
  { should_update := Option.isSome
    post_update := fun _ => none }

/-- The impl of StateUpdate for the unit type: never requests an update. -/
def unitStateUpdateOps : StateUpdateOps Unit :=
  { should_update := fun _ => false
    post_update := fun u => u }

/- ### the StateSet dependency descriptor (state_set.rs, both revisions) -/

/-- is_changed of the empty dependency tuple: the macro expansion
produces the literal false (no is_updated flags to or together). -/
def emptySetIsChanged : Unit → Bool := fun _ => false

/-- is_changed of a single dependency state: reads its is_updated flag. -/
def singleSetIsChanged (d : StateData δ υ) : Bool := d.is_updated

/-- is_changed of a single dependency state, old revision. -/
def singleSetIsChangedOld (d : StateDataOld δ υ) : Bool := d.is_updated

/- ### the per-record body of update_state_data_system
     (src/bevy_state_v3/src/state.rs lines 172-189 and
      src/bevy_state/src/state.rs lines 72-88)

   The system loops over every (record, dependency snapshot) pair; the
   embedding is its body on a single pair.  The snapshot type Δ and its
   is_changed reader abstract over the StateSet instance of the
   dependency tuple; the state-specific update function f receives, as
   in Rust, mutable access to the record (modelled by returning the
   mutated record next to the value it computed). -/

/-- One run of the v3 update system on one record: reset is_updated to
false, then, if a dependency is updated or the pending payload asks for
an update, run the update function, commit via inner_update and clear
the payload via post_update; otherwise leave the record as it is. -/
def update_state_data_step [DecidableEq σ] (ops : StateUpdateOps υ)
    (isChanged : Δ → Bool) (f : StateData σ υ → Δ → StateData σ υ × σ)
    (deps : Δ) (r : StateData σ υ) : StateData σ υ :=
  let r1 := { r with is_updated := false }
  if isChanged deps || ops.should_update r1.update then
    let fr := f r1 deps
    let r3 := fr.1.inner_update fr.2
    { r3 with update := ops.post_update r3.update }
  else
    r1

/-- The v3 update system body where the update function may panic
(returns none).  none as a result means the pass panicked. -/
def update_state_data_step_checked [DecidableEq σ] (ops : StateUpdateOps υ)
    (isChanged : Δ → Bool)
    (f : StateData σ υ → Δ → Option (StateData σ υ × σ))
    (deps : Δ) (r : StateData σ υ) : Option (StateData σ υ) :=
  let r1 := { r with is_updated := false }
  if isChanged deps || ops.should_update r1.update then
    match f r1 deps with
    | none => none
    | some (r2, next) =>
      let r3 := r2.inner_update next
      some { r3 with update := ops.post_update r3.update }
  else
    some r1

/-- The old revision's update system body (bevy_state/src/state.rs
lines 72-88), panics surfaced as none; StateDataOld.update is the
commit, waker.reset() is modelled by post_update. -/
def update_state_data_step_old_checked [DecidableEq σ] (ops : StateUpdateOps υ)
    (isChanged : Δ → Bool)
    (f : StateDataOld σ υ → Δ → Option (StateDataOld σ υ × σ))
    (deps : Δ) (r : StateDataOld σ υ) : Option (StateDataOld σ υ) :=
  let r1 := { r with is_updated := false }
  if isChanged deps || ops.should_update r1.waker then
    match f r1 deps with
    | none => none
    | some (r2, next) =>
      let r3 := r2.update next
      some { r3 with waker := ops.post_update r3.waker }
  else
    some r1

/- ### macro-derived update functions
     (src/bevy_state_v3/macros/src/lib.rs; the old macro crate generates
      the same bodies with target_mut in place of update_mut) -/

/-- derive_root_state update body (macros lines 110-132):
state.update_mut().take().unwrap().  take mutates the record; unwrap of
none is a panic, surfaced as none. -/
def root_state_update_checked (st : StateData σ (Option σ)) :
    Option (StateData σ (Option σ) × σ) :=
  match st.update with
  | some v => some ({ st with update := none }, v)
  | none => none

/-- Old-revision derived root update body (same shape over StateDataOld,
bevy_state/macros lines 105-119). -/
def root_state_update_old_checked (st : StateDataOld σ (Option σ)) :
    Option (StateDataOld σ (Option σ) × σ) :=
  match st.waker with
  | some v => some ({ st with waker := none }, v)
  | none => none

/-- derive_sub_state update body (macros lines 134-165): match on the
pair of the dependency's current value and the taken pending payload;
if the dependency pattern (modelled by the predicate pred) matches,
yield the pending value or otherwise a fresh default; in every other
case yield none.  The take always consumes the pending payload. -/
def sub_state_update (pred : δ → Bool) (dflt : σ)
    (st : StateData (Option σ) (Option σ)) (dep : StateData δ υ₂) :
    StateData (Option σ) (Option σ) × Option σ :=
  ({ st with update := none },
    if pred dep.current then
      match st.update with
      | none => some dflt
      | some next => some next
    else
      none)

/- ### transition notifier systems
     (src/bevy_state_v3/src/transitions.rs and
      src/bevy_state/src/transitions.rs)

   Each system, per record, either emits one event carrying a
   (previous, current) payload or emits nothing; the embedding returns
   that optional payload.  In the v3 payload the previous component is
   the record's optional previous value before the source's unwrap. -/

/-- v3 on_exit_transition (transitions.rs lines 30-44): skip unless
is_updated and not reentrant; payload previous and current. -/
def on_exit_event (r : StateData σ υ) : Option (Option σ × σ) :=
  if !r.is_updated || r.is_reentrant then none
  else some (r.previous, r.current)

/-- v3 on_enter_transition (transitions.rs lines 64-78): same guard and
payload as the exit system. -/
def on_enter_event (r : StateData σ υ) : Option (Option σ × σ) :=
  if !r.is_updated || r.is_reentrant then none
  else some (r.previous, r.current)

/-- v3 on_reexit_transition (transitions.rs lines 98-112): skip only
when not is_updated; previous is reentrant_previous, which substitutes
current for a reentrant transition. -/
def on_reexit_event (r : StateData σ υ) : Option (Option σ × σ) :=
  if !r.is_updated then none
  else some (r.reentrant_previous, r.current)

/-- v3 on_reenter_transition (transitions.rs lines 132-146): same guard
and payload as the reexit system. -/
def on_reenter_event (r : StateData σ υ) : Option (Option σ × σ) :=
  if !r.is_updated then none
  else some (r.reentrant_previous, r.current)

/-- Old on_exit_transition (bevy_state/transitions.rs lines 77-91). -/
def on_exit_event_old (r : StateDataOld σ υ) : Option (σ × σ) :=
  if !r.is_updated || r.is_reentrant then none
  else some (r.previous, r.current)

/-- Old on_enter_transition (bevy_state/transitions.rs lines 109-123). -/
def on_enter_event_old (r : StateDataOld σ υ) : Option (σ × σ) :=
  if !r.is_updated || r.is_reentrant then none
  else some (r.previous, r.current)

/-- Old on_reexit_transition (bevy_state/transitions.rs lines 141-155):
its guard also skips reentrant transitions, exactly like the plain exit
system, although its doc comment says reentrant transitions are
included. -/
def on_reexit_event_old (r : StateDataOld σ υ) : Option (σ × σ) :=
  if !r.is_updated || r.is_reentrant then none
  else some (r.previous, r.current)

/-- Old on_reenter_transition (bevy_state/transitions.rs lines 173-187):
same reentrant-skipping guard as the old reexit system. -/
def on_reenter_event_old (r : StateDataOld σ υ) : Option (σ × σ) :=
  if !r.is_updated || r.is_reentrant then none
  else some (r.previous, r.current)

/- ### scheduling order derived from dependencies
     (src/bevy_state_v3/src/state.rs line 117: ORDER = HIGHEST_ORDER + 1;
      src/bevy_state_v3/src/state_set.rs lines 93-129:
      HIGHEST_ORDER = max of member orders with sentinel 0) -/

/-- A state type seen through its dependency structure only: a node with
the list of its dependency states. -/
inductive StateNode : Type where
  | node (deps : List StateNode) : StateNode

mutual

/-- ORDER of a state: HIGHEST_ORDER of its dependency set plus one
(state.rs line 117). -/
def StateNode.order : StateNode → Nat
  | .node deps => StateNode.highestOrder deps + 1

/-- HIGHEST_ORDER of a dependency set: the fold of const_max over the
member orders with the sentinel 0, so 0 for the empty set
(the max! macro of state_set.rs). -/
def StateNode.highestOrder : List StateNode → Nat
  | [] => 0
  | d :: ds => Nat.max (StateNode.order d) (StateNode.highestOrder ds)

end

/- ### system set configuration
     (src/bevy_state_v3/src/scheduling.rs lines 14-67; the split-schedule
      revision in src/bevy_state_v3/src/system_set.rs lines 36-75 issues
      the same relative constraints) -/

/-- The members of the StateSystemSet enum of scheduling.rs. -/
inductive SysSet : Type where
  | allUpdates : SysSet
  | updateSet (o : Nat) : SysSet
  | allExits : SysSet
  | exitSet (o : Nat) : SysSet
  | allEnters : SysSet
  | enterSet (o : Nat) : SysSet
deriving DecidableEq

/-- An ordering constraint emitted by configure_sets: either one set
runs entirely before another, or one set is contained in another. -/
inductive SetConstraint : Type where
  | before (a b : SysSet) : SetConstraint
  | inSet (member container : SysSet) : SetConstraint
deriving DecidableEq

/-- StateSystemSet::configuration for a state of order o
(scheduling.rs lines 52-67): chain the three phases, put each per-order
set in its phase, updates after the preceding order, exits before the
preceding order, enters after the preceding order. -/
def stateSystemSetConfiguration (o : Nat) : List SetConstraint :=
  [ .before .allUpdates .allExits,
    .before .allExits .allEnters,
    .inSet (.updateSet o) .allUpdates,
    .before (.updateSet (o - 1)) (.updateSet o),
    .inSet (.exitSet o) .allExits,
    .before (.exitSet o) (.exitSet (o - 1)),
    .inSet (.enterSet o) .allEnters,
    .before (.enterSet (o - 1)) (.enterSet o) ]

/-- Interpretation of a schedule: every set occupies a time interval
(first and last instant of its systems); before means strictly earlier
intervals, membership means interval containment. -/
def constraintHolds (t : SysSet → Nat × Nat) : SetConstraint → Bool
  | .before a b => decide ((t a).2 < (t b).1)
  | .inSet m c => decide ((t c).1 ≤ (t m).1) && decide ((t m).2 ≤ (t c).2)

/- ### commands (src/bevy_state_v3/src/commands.rs; that file belongs to
     the old-record revision: it constructs StateData::new with a
     suppress flag and writes the waker field) -/

/-- The slice of the world the two commands touch: a fresh-entity
counter, the list of entities carrying GlobalMarker, and the records of
the one state type involved, keyed by entity. -/
structure CommandWorld (σ υ : Type) where
  nextId : Nat
  globals : List Nat
  records : List (Nat × StateDataOld σ υ)
deriving DecidableEq

/-- The record-insertion half of InitializeStateCommand::apply
(commands.rs lines 55-73): insert a fresh record unless one is already
present, in which case warn (the returned flag) and change nothing. -/
def insertStateData (e : Nat) (initial : σ) (updDflt : υ) (suppress : Bool)
    (w : CommandWorld σ υ) : CommandWorld σ υ × Bool :=
  match w.records.lookup e with
  | none =>
    ({ w with records := w.records ++ [(e, StateDataOld.new initial updDflt suppress)] },
      false)
  | some _ => (w, true)

/-- InitializeStateCommand::apply (commands.rs lines 36-75): resolve the
target entity (the given local one, or the single global-marker entity,
spawning it when absent, warning and aborting when several exist), then
insert the record. -/
def initialize_state_apply (localE : Option Nat) (initial : σ) (updDflt : υ)
    (suppress : Bool) (w : CommandWorld σ υ) : CommandWorld σ υ × Bool :=
  match localE with
  | some e => insertStateData e initial updDflt suppress w
  | none =>
    match w.globals with
    | [e] => insertStateData e initial updDflt suppress w
    | [] =>
      let e := w.nextId
      insertStateData e initial updDflt suppress
        { w with nextId := w.nextId + 1, globals := w.globals ++ [e] }
    | _ => (w, true)

/-- target_entity (commands.rs lines 91-111): a local target is taken
as is; a global target requires exactly one global-marker entity,
otherwise warn (flag) and yield none. -/
def target_entity_model (w : CommandWorld σ υ) (localE : Option Nat) :
    Option Nat × Bool :=
  match localE with
  | some e => (some e, false)
  | none =>
    match w.globals with
    | [e] => (some e, false)
    | _ => (none, true)

/-- WakeStateTargetCommand::apply (commands.rs lines 113-128): resolve
the target, warn and change nothing when it or its record is missing,
otherwise overwrite only the record's waker field. -/
def wake_state_apply (localE : Option Nat) (upd : υ) (w : CommandWorld σ υ) :
    CommandWorld σ υ × Bool :=
  match (target_entity_model w localE).1 with
  | none => (w, true)
  | some e =>
    match w.records.lookup e with
    | none => (w, true)
    | some r =>
      ({ w with records :=
          w.records.map fun p => if p.1 = e then (e, { r with waker := upd }) else p },
        false)

/- ### registration (src/bevy_state_v3/src/state.rs lines 127-170) -/

/-- The slice of the world register_state touches, counted per state
type S: RegisteredState marker entities, configure_sets calls and
update-system entries in the update schedule, configure_sets calls,
config systems and state-scoped despawn systems in the transition
schedule. -/
structure RegistryWorld : Type where
  registrations : Nat
  updateSetConfigs : Nat
  updateSystems : Nat
  transitionSetConfigs : Nat
  transitionSystems : Nat
  scopedSystems : Nat
deriving DecidableEq

/-- State::register_state (v3 state.rs lines 127-170): with exactly one
existing registration warn (flag) and return the world untouched; with
several panic (none); otherwise spawn the marker, configure the sets
and add the update system and the configured transition systems.
cfgSystems counts config.systems, stateScoped is config.state_scoped. -/
def register_state_model (cfgSystems : Nat) (stateScoped : Bool)
    (w : RegistryWorld) : Option (RegistryWorld × Bool) :=
  if w.registrations = 1 then some (w, true)
  else if 2 ≤ w.registrations then none
  else
    some
      ({ registrations := w.registrations + 1
         updateSetConfigs := w.updateSetConfigs + 1
         updateSystems := w.updateSystems + 1
         transitionSetConfigs := w.transitionSetConfigs + 1
         transitionSystems := w.transitionSystems + cfgSystems
         scopedSystems := w.scopedSystems + (if stateScoped then 1 else 0) },
        false)

/- ## Theorems -/

/-- C1: one run of the per-state update system first resets is_updated
to false and then recomputes and commits exactly when a dependency
record's is_updated flag is set or the pending update should apply;
when neither holds, the record keeps its current value, previous value,
is_reentrant flag and pending update, and is_updated stays false. -/
theorem update_state_data_step_gating [DecidableEq σ]
    (ops : StateUpdateOps υ) (isChanged : Δ → Bool)
    (f : StateData σ υ → Δ → StateData σ υ × σ) (deps : Δ) (r : StateData σ υ) :
    ((isChanged deps || ops.should_update r.update) = false →
      update_state_data_step ops isChanged f deps r = { r with is_updated := false }) ∧
    ((isChanged deps || ops.should_update r.update) = true →
      update_state_data_step ops isChanged f deps r =
        { (f { r with is_updated := false } deps).1.inner_update
            (f { r with is_updated := false } deps).2 with
          update := ops.post_update
            ((f { r with is_updated := false } deps).1.inner_update
              (f { r with is_updated := false } deps).2).update }) := by
  constructor <;> intro h <;>
    simp [update_state_data_step, h]

/-- Witness for C1: on a record with no pending update and an unchanged
dependency the system leaves the record alone, and on a record with a
pending value it commits it. -/
theorem update_state_data_step_gating_witness :
    (update_state_data_step (optionStateUpdateOps Nat) emptySetIsChanged
        (fun st _ => (st, 0)) () ⟨true, some 2, 3, none, true⟩ =
      ⟨true, some 2, 3, none, false⟩) ∧
    (update_state_data_step (optionStateUpdateOps Nat) emptySetIsChanged
        (fun st _ => ({ st with update := none }, st.update.getD 0)) ()
        ⟨false, none, 3, some 5, false⟩ =
      ⟨false, some 3, 5, none, false⟩) := by
  have h1 := update_state_data_step_gating (optionStateUpdateOps Nat) emptySetIsChanged
    (fun st _ => (st, 0)) () ⟨true, some 2, 3, none, true⟩
  have h2 := update_state_data_step_gating (optionStateUpdateOps Nat) emptySetIsChanged
    (fun st _ => ({ st with update := none }, st.update.getD 0)) ()
    ⟨false, none, 3, some 5, false⟩
  exact ⟨h1.1 (by decide), by rw [h2.2 (by decide)]; decide⟩

/-- C2: in the old revision the commit operation StateDataOld.update
behaves as claimed (reentrant detection, previous shifting, is_updated
set in both cases), but the v3 commit StateDataOld's counterpart
StateData.inner_update leaves is_updated equal to false in both the
reentrant and the non-reentrant case, never setting it to true. -/
theorem commit_is_updated_divergence :
    ((StateDataOld.update ⟨false, 1, 7, (none : Option Nat), false⟩ 7).is_updated = true) ∧
    ((StateDataOld.update ⟨false, 1, 7, (none : Option Nat), false⟩ 7).is_reentrant = true) ∧
    ((StateDataOld.update ⟨false, 1, 7, (none : Option Nat), false⟩ 7).previous = 1) ∧
    ((StateDataOld.update ⟨false, 1, 7, (none : Option Nat), false⟩ 9).is_updated = true) ∧
    ((StateDataOld.update ⟨false, 1, 7, (none : Option Nat), false⟩ 9).previous = 7) ∧
    ((StateDataOld.update ⟨false, 1, 7, (none : Option Nat), false⟩ 9).current = 9) ∧
    (StateData.inner_update ⟨false, none, 7, (none : Option Nat), false⟩ 7 =
      ⟨true, none, 7, none, false⟩) ∧
    (StateData.inner_update ⟨false, none, 7, (none : Option Nat), false⟩ 9 =
      ⟨false, some 7, 9, none, false⟩) := by
  decide

/-- C3: a pending update equal to the current value yields a reentrant
record, but no notification fires for it in either revision: the v3
update pass leaves is_updated false, so even the reexit and reenter
systems skip the record, and in the old revision the record flags are
as claimed yet the old reexit and reenter systems skip every reentrant
record. -/
theorem reentrant_update_notification_divergence :
    (update_state_data_step_checked (optionStateUpdateOps Nat) emptySetIsChanged
        (fun st _ => root_state_update_checked st) ()
        ⟨false, none, 0, some 0, false⟩ =
      some ⟨true, none, 0, none, false⟩) ∧
    (on_exit_event (⟨true, none, 0, none, false⟩ : StateData Nat (Option Nat)) = none) ∧
    (on_enter_event (⟨true, none, 0, none, false⟩ : StateData Nat (Option Nat)) = none) ∧
    (on_reexit_event (⟨true, none, 0, none, false⟩ : StateData Nat (Option Nat)) = none) ∧
    (on_reenter_event (⟨true, none, 0, none, false⟩ : StateData Nat (Option Nat)) = none) ∧
    (update_state_data_step_old_checked (optionStateUpdateOps Nat) emptySetIsChanged
        (fun st _ => root_state_update_old_checked st) ()
        ⟨false, 9, 0, some 0, false⟩ =
      some ⟨true, 9, 0, none, true⟩) ∧
    (on_exit_event_old (⟨true, 9, 0, none, true⟩ : StateDataOld Nat (Option Nat)) = none) ∧
    (on_enter_event_old (⟨true, 9, 0, none, true⟩ : StateDataOld Nat (Option Nat)) = none) ∧
    (on_reexit_event_old (⟨true, 9, 0, none, true⟩ : StateDataOld Nat (Option Nat)) = none) ∧
    (on_reenter_event_old (⟨true, 9, 0, none, true⟩ : StateDataOld Nat (Option Nat)) = none) := by
  decide

/-- C4: in a schedule satisfying the constraints emitted by
StateSystemSet::configuration for every registered order, every update
set runs before every exit set, every exit set runs before every enter
set, update and enter sets of order k come after those of order k - 1,
and exit sets of order k come before those of order k - 1. -/
theorem transition_schedule_ordering (t : SysSet → Nat × Nat) (orders : List Nat)
    (h : ∀ o ∈ orders, ∀ c ∈ stateSystemSetConfiguration o, constraintHolds t c = true) :
    (∀ o1 ∈ orders, ∀ o2 ∈ orders,
      (t (.updateSet o1)).2 < (t (.exitSet o2)).1 ∧
      (t (.exitSet o1)).2 < (t (.enterSet o2)).1) ∧
    (∀ o ∈ orders,
      (t (.updateSet (o - 1))).2 < (t (.updateSet o)).1 ∧
      (t (.exitSet o)).2 < (t (.exitSet (o - 1))).1 ∧
      (t (.enterSet (o - 1))).2 < (t (.enterSet o)).1) := by
  constructor
  · intro o1 h1 o2 h2
    have c1 := h o1 h1 (.inSet (.updateSet o1) .allUpdates) (by
      simp [stateSystemSetConfiguration])
    have c2 := h o1 h1 (.before .allUpdates .allExits) (by
      simp [stateSystemSetConfiguration])
    have c3 := h o2 h2 (.inSet (.exitSet o2) .allExits) (by
      simp [stateSystemSetConfiguration])
    have c4 := h o1 h1 (.before .allExits .allEnters) (by
      simp [stateSystemSetConfiguration])
    have c5 := h o1 h1 (.inSet (.exitSet o1) .allExits) (by
      simp [stateSystemSetConfiguration])
    have c6 := h o2 h2 (.inSet (.enterSet o2) .allEnters) (by
      simp [stateSystemSetConfiguration])
    simp only [constraintHolds, Bool.and_eq_true, decide_eq_true_eq] at c1 c2 c3 c4 c5 c6
    omega
  · intro o ho
    have c1 := h o ho (.before (.updateSet (o - 1)) (.updateSet o)) (by
      simp [stateSystemSetConfiguration])
    have c2 := h o ho (.before (.exitSet o) (.exitSet (o - 1))) (by
      simp [stateSystemSetConfiguration])
    have c3 := h o ho (.before (.enterSet (o - 1)) (.enterSet o)) (by
      simp [stateSystemSetConfiguration])
    simp only [constraintHolds, decide_eq_true_eq] at c1 c2 c3
    exact ⟨c1, c2, c3⟩

/-- A concrete schedule over the orders 1 and 2 that satisfies every
emitted constraint. -/
def sampleSchedule : SysSet → Nat × Nat
  | .allUpdates => (0, 9)
  | .updateSet o => (o, o)
  | .allExits => (10, 19)
  | .exitSet o => (18 - o, 18 - o)
  | .allEnters => (20, 29)
  | .enterSet o => (20 + o, 20 + o)

/-- Witness for C4 at the concrete schedule: the update of order 1 is
before the exit of order 2, the exit of order 2 before the exit of
order 1, the exit of order 1 before the enter of order 1, and the enter
of order 1 before the enter of order 2. -/
theorem transition_schedule_ordering_witness :
    (sampleSchedule (.updateSet 1)).2 < (sampleSchedule (.exitSet 2)).1 ∧
    (sampleSchedule (.exitSet 2)).2 < (sampleSchedule (.exitSet 1)).1 ∧
    (sampleSchedule (.exitSet 1)).2 < (sampleSchedule (.enterSet 1)).1 ∧
    (sampleSchedule (.enterSet 1)).2 < (sampleSchedule (.enterSet 2)).1 := by
  have h := transition_schedule_ordering sampleSchedule [1, 2] (by decide)
  refine ⟨(h.1 1 (by simp) 2 (by simp)).1, (h.2 2 (by simp)).2.1,
    (h.1 1 (by simp) 1 (by simp)).2, (h.2 2 (by simp)).2.2⟩

/-- C5: the order of a state is one more than the highest order of its
dependency set, the highest order of the empty set is 0 (so a
dependency-free state has order 1), and therefore the order of a state
is strictly greater than the order of each of its dependencies. -/
theorem state_order_above_dependencies (deps : List StateNode) :
    (StateNode.node deps).order = StateNode.highestOrder deps + 1 ∧
    StateNode.highestOrder [] = 0 ∧
    (StateNode.node []).order = 1 ∧
    ∀ d ∈ deps, d.order < (StateNode.node deps).order := by
  refine ⟨rfl, rfl, rfl, ?_⟩
  have hle : ∀ d ∈ deps, d.order ≤ StateNode.highestOrder deps := by
    intro d hd
    induction deps with
    | nil => cases hd
    | cons a as ih =>
      rw [StateNode.highestOrder]
      rcases List.mem_cons.mp hd with h | h
      · subst h; exact Nat.le_max_left _ _
      · exact Nat.le_trans (ih h) (Nat.le_max_right _ _)
  intro d hd
  have := hle d hd
  rw [StateNode.order]
  omega

/-- Witness for C5: a root's order is 1, a state depending on it has
order 2 and is strictly above its dependency. -/
theorem state_order_above_dependencies_witness :
    (StateNode.node [StateNode.node []]).order = 2 ∧
    (StateNode.node []).order < (StateNode.node [StateNode.node []]).order := by
  have h := state_order_above_dependencies [StateNode.node []]
  refine ⟨?_, h.2.2.2 (StateNode.node []) (by simp)⟩
  rw [h.1]
  simp [StateNode.highestOrder, StateNode.order]

/-- C6 counterexample: with the dependency predicate holding, no pending
value and a present current value (some true, different from the
default false), the derived substate update returns the fresh default
some false instead of carrying the current value forward. -/
theorem sub_state_update_carry_forward_cex :
    ((sub_state_update (fun _ : Nat => true) false
        ⟨false, none, some true, (none : Option Bool), false⟩
        (⟨false, none, 0, (), false⟩ : StateData Nat Unit)).2 = some false) ∧
    ((⟨false, none, some true, (none : Option Bool), false⟩ :
        StateData (Option Bool) (Option Bool)).current = some true) ∧
    (some false ≠ some true) := by
  decide

/-- C6 amended: when the dependency predicate holds the derived substate
update returns the pending value if one is set and otherwise a fresh
default, even when a current value exists (no carry-forward); when the
predicate fails it returns none; the pending value is consumed in every
case. -/
theorem sub_state_update_spec (pred : δ → Bool) (dflt : σ)
    (st : StateData (Option σ) (Option σ)) (dep : StateData δ υ₂) :
    ((sub_state_update pred dflt st dep).2 =
      if pred dep.current then some (st.update.getD dflt) else none) ∧
    ((sub_state_update pred dflt st dep).1 = { st with update := none }) := by
  refine ⟨?_, rfl⟩
  cases h : st.update <;> simp [sub_state_update, h]

/-- Witness for C6 amended: evaluated with a pending value and with
none, under a holding and a failing predicate. -/
theorem sub_state_update_spec_witness :
    ((sub_state_update (fun d : Nat => decide (d = 0)) false
        ⟨false, none, none, some true, false⟩
        (⟨false, none, 0, (), false⟩ : StateData Nat Unit)).2 = some true) ∧
    ((sub_state_update (fun d : Nat => decide (d = 0)) false
        ⟨false, none, some true, none, false⟩
        (⟨false, none, 3, (), false⟩ : StateData Nat Unit)).2 = none) := by
  have h1 := sub_state_update_spec (fun d : Nat => decide (d = 0)) false
    (⟨false, none, none, some true, false⟩ : StateData (Option Bool) (Option Bool))
    (⟨false, none, 0, (), false⟩ : StateData Nat Unit)
  have h2 := sub_state_update_spec (fun d : Nat => decide (d = 0)) false
    (⟨false, none, some true, none, false⟩ : StateData (Option Bool) (Option Bool))
    (⟨false, none, 3, (), false⟩ : StateData Nat Unit)
  exact ⟨by rw [h1.1]; decide, by rw [h2.1]; decide⟩

/-- C7 counterexample: the v3 constructor leaves previous absent, not
equal to the initial value, and the old constructor called without
suppression leaves is_updated true, not false. -/
theorem state_data_new_previous_cex :
    ((StateData.new (0 : Nat) (none : Option Nat)).previous = none) ∧
    ((StateData.new (0 : Nat) (none : Option Nat)).previous ≠ some 0) ∧
    ((StateDataOld.new (0 : Nat) (none : Option Nat) false).is_updated = true) := by
  decide

/-- C7 amended: the v3 constructor produces a record with current equal
to the initial value, previous absent (as the data-model section
states), is_reentrant false and is_updated false; the old revision's
constructor takes a suppression flag and instead sets previous to the
initial value, is_reentrant to true and is_updated to the negation of
the flag. -/
theorem state_data_new_spec (initial : σ) (d : υ) (suppress : Bool) :
    ((StateData.new initial d).current = initial) ∧
    ((StateData.new initial d).previous = none) ∧
    ((StateData.new initial d).is_updated = false) ∧
    ((StateData.new initial d).is_reentrant = false) ∧
    ((StateData.new initial d).update = d) ∧
    ((StateDataOld.new initial d suppress).current = initial) ∧
    ((StateDataOld.new initial d suppress).previous = initial) ∧
    ((StateDataOld.new initial d suppress).is_updated = !suppress) ∧
    ((StateDataOld.new initial d suppress).is_reentrant = true) := by
  exact ⟨rfl, rfl, rfl, rfl, rfl, rfl, rfl, rfl, rfl⟩

/-- Witness for C7 amended, at a concrete initial value. -/
theorem state_data_new_spec_witness :
    ((StateData.new (4 : Nat) (none : Option Nat)).current = 4) ∧
    ((StateData.new (4 : Nat) (none : Option Nat)).previous = none) ∧
    ((StateDataOld.new (4 : Nat) (none : Option Nat) true).is_updated = false) := by
  have h := state_data_new_spec (4 : Nat) (none : Option Nat) true
  exact ⟨h.1, h.2.1, by rw [h.2.2.2.2.2.2.2.1]; decide⟩

/-- C8: every listed configuration error (initializing an already
present record locally or globally, any global operation with several
global-marker entities, a wake with no global-marker entity) only warns
and leaves the world, in particular every record, unchanged; a global
initialize with no global-marker entity spawns one and proceeds with
the insertion. -/
theorem command_error_recovery (w : CommandWorld σ υ) (initial : σ) (updDflt : υ)
    (suppress : Bool) (upd : υ) (e : Nat) (r : StateDataOld σ υ) :
    (w.records.lookup e = some r →
      initialize_state_apply (some e) initial updDflt suppress w = (w, true)) ∧
    (w.globals = [e] → w.records.lookup e = some r →
      initialize_state_apply none initial updDflt suppress w = (w, true)) ∧
    (2 ≤ w.globals.length →
      initialize_state_apply none initial updDflt suppress w = (w, true)) ∧
    (w.globals = [] → wake_state_apply none upd w = (w, true)) ∧
    (2 ≤ w.globals.length → wake_state_apply none upd w = (w, true)) ∧
    (w.globals = [] → w.records.lookup w.nextId = none →
      initialize_state_apply none initial updDflt suppress w =
        ({ nextId := w.nextId + 1, globals := [w.nextId],
           records := w.records ++ [(w.nextId, StateDataOld.new initial updDflt suppress)] },
          false)) := by
  refine ⟨?_, ?_, ?_, ?_, ?_, ?_⟩
  · intro h
    simp [initialize_state_apply, insertStateData, h]
  · intro hg h
    simp [initialize_state_apply, hg, insertStateData, h]
  · intro hlen
    rcases hg : w.globals with _ | ⟨a, _ | ⟨b, t⟩⟩
    · rw [hg] at hlen; simp at hlen
    · rw [hg] at hlen; simp at hlen
    · simp [initialize_state_apply, hg]
  · intro hg
    simp [wake_state_apply, target_entity_model, hg]
  · intro hlen
    rcases hg : w.globals with _ | ⟨a, _ | ⟨b, t⟩⟩
    · rw [hg] at hlen; simp at hlen
    · rw [hg] at hlen; simp at hlen
    · simp [wake_state_apply, target_entity_model, hg]
  · intro hg hn
    simp [initialize_state_apply, hg, insertStateData, hn]

/-- Witness for C8: the four warning cases and the auto-creating global
initialize, each at a concrete world. -/
theorem command_error_recovery_witness :
    (initialize_state_apply (some 2) 3 (none : Option Nat) false
        ⟨5, [2], [(2, StateDataOld.new 3 none false)]⟩ =
      (⟨5, [2], [(2, StateDataOld.new 3 none false)]⟩, true)) ∧
    (initialize_state_apply none 3 (none : Option Nat) false
        ⟨5, [2], [(2, StateDataOld.new 3 none false)]⟩ =
      (⟨5, [2], [(2, StateDataOld.new 3 none false)]⟩, true)) ∧
    (initialize_state_apply none 3 (none : Option Nat) false
        (⟨5, [0, 1], []⟩ : CommandWorld Nat (Option Nat)) =
      (⟨5, [0, 1], []⟩, true)) ∧
    (wake_state_apply none (some 4) (⟨5, [], []⟩ : CommandWorld Nat (Option Nat)) =
      (⟨5, [], []⟩, true)) ∧
    (wake_state_apply none (some 4) (⟨5, [0, 1], []⟩ : CommandWorld Nat (Option Nat)) =
      (⟨5, [0, 1], []⟩, true)) ∧
    (initialize_state_apply none 3 (none : Option Nat) false
        (⟨5, [], []⟩ : CommandWorld Nat (Option Nat)) =
      (⟨6, [5], [(5, StateDataOld.new 3 none false)]⟩, false)) := by
  have h1 := command_error_recovery
    (⟨5, [2], [(2, StateDataOld.new 3 none false)]⟩ : CommandWorld Nat (Option Nat))
    3 none false (some 4) 2 (StateDataOld.new 3 none false)
  have h2 := command_error_recovery (⟨5, [0, 1], []⟩ : CommandWorld Nat (Option Nat))
    3 none false (some 4) 2 (StateDataOld.new 3 none false)
  have h3 := command_error_recovery (⟨5, [], []⟩ : CommandWorld Nat (Option Nat))
    3 none false (some 4) 2 (StateDataOld.new 3 none false)
  refine ⟨h1.1 (by decide), h1.2.1 rfl (by decide), h2.2.2.1 (by decide),
    h3.2.2.2.1 rfl, h2.2.2.2.2.1 (by decide), ?_⟩
  have h4 := h3.2.2.2.2.2 rfl (by decide)
  simpa using h4

/-- C9: registering a state on a world with no prior registration adds
exactly one registration marker, one update-system entry and the
configured transition systems; calling register again on the resulting
world only warns and returns that world unchanged, adding no second
marker and no second update-system entry. -/
theorem register_state_idempotent (cfg : Nat) (sc : Bool) (w : RegistryWorld)
    (h : w.registrations = 0) :
    register_state_model cfg sc w =
      some ({ registrations := 1,
              updateSetConfigs := w.updateSetConfigs + 1,
              updateSystems := w.updateSystems + 1,
              transitionSetConfigs := w.transitionSetConfigs + 1,
              transitionSystems := w.transitionSystems + cfg,
              scopedSystems := w.scopedSystems + (if sc then 1 else 0) }, false) ∧
    register_state_model cfg sc
        { registrations := 1,
          updateSetConfigs := w.updateSetConfigs + 1,
          updateSystems := w.updateSystems + 1,
          transitionSetConfigs := w.transitionSetConfigs + 1,
          transitionSystems := w.transitionSystems + cfg,
          scopedSystems := w.scopedSystems + (if sc then 1 else 0) } =
      some ({ registrations := 1,
              updateSetConfigs := w.updateSetConfigs + 1,
              updateSystems := w.updateSystems + 1,
              transitionSetConfigs := w.transitionSetConfigs + 1,
              transitionSystems := w.transitionSystems + cfg,
              scopedSystems := w.scopedSystems + (if sc then 1 else 0) }, true) := by
  constructor
  · simp [register_state_model, h]
  · simp [register_state_model]

/-- Witness for C9: a fresh world, registered twice with two configured
transition systems and state scoping on. -/
theorem register_state_idempotent_witness :
    (register_state_model 2 true ⟨0, 0, 0, 0, 0, 0⟩ =
      some (⟨1, 1, 1, 1, 2, 1⟩, false)) ∧
    (register_state_model 2 true ⟨1, 1, 1, 1, 2, 1⟩ =
      some (⟨1, 1, 1, 1, 2, 1⟩, true)) := by
  have h := register_state_idempotent 2 true ⟨0, 0, 0, 0, 0, 0⟩ rfl
  exact ⟨h.1, h.2⟩

/-- C10: for a macro-derived root state the update system never hits the
unwrap panic inside the derived update function: the empty dependency
set never reports a change, so the update function only runs when the
pending option is some. -/
theorem root_state_update_no_panic [DecidableEq σ] (r : StateData σ (Option σ)) :
    (update_state_data_step_checked (optionStateUpdateOps σ) emptySetIsChanged
        (fun st _ => root_state_update_checked st) () r).isSome = true := by
  cases h : r.update <;>
    simp [update_state_data_step_checked, optionStateUpdateOps, emptySetIsChanged,
      root_state_update_checked, h]

/-- Witness for C10 at a concrete record carrying a pending value. -/
theorem root_state_update_no_panic_witness :
    (update_state_data_step_checked (optionStateUpdateOps Nat) emptySetIsChanged
        (fun st _ => root_state_update_checked st) ()
        ⟨false, none, 4, some 6, false⟩).isSome = true :=
  root_state_update_no_panic ⟨false, none, 4, some 6, false⟩

end BevyState
